import Mathlib

/-!
Shallow embedding of the cf-ping Cloudflare worker (src/src/index.ts,
src/src/telegramBot.ts, src/src/types.ts).

Timestamps are Unix seconds stored as JS numbers; within the realistic
range they are exact integers, so we model them as `Int` (subtraction such
as `currentTime - last_hello_timestamp` is plain integer subtraction in
the source).  The D1 row `server_status` is the `ServerStatus` structure;
the decision logic of the `/hello` handler and of the `scheduled` sweep is
extracted as pure functions over `(existing record option, now)`, with the
notification text constructors reified as an inductive so the reported
numbers stay inspectable.
-/

namespace CfPing

/-- `last_state` column: the TS union `'up' | 'down'`. -/
inductive ServerState where
  | up : ServerState
  | down : ServerState
  deriving DecidableEq, Repr

/-- The `ServerStatus` interface of src/src/types.ts / one row of the
`server_status` table. -/
structure ServerStatus where
  server_name : String
  last_hello_timestamp : Int
  last_state : ServerState
  last_state_change_timestamp : Int
  deriving DecidableEq, Repr

/-- The `Env` fields relevant to the decision logic (src/src/types.ts).
`ALERT_THRESHOLD_SECONDS` is declared in the interface; whether the code
reads it is exactly what claim C3 is about. -/
structure Env where
  SERVERS : String
  ACCESS_TOKEN : String
  ALERT_THRESHOLD_SECONDS : Int
  deriving DecidableEq, Repr

/-- The notification messages the worker can send, with the data embedded
in their text (src/src/index.ts lines 77, 105, 149, 163). -/
inductive Notification where
  /-- `✅ Server *S* is back UP. It was down for approximately D.` where
  `D` renders `downTimeSeconds`. -/
  | backUp (serverName : String) (downTimeSeconds : Int)
  /-- `👋 Server *S* sent its first ping and is now marked UP.` -/
  | firstPing (serverName : String)
  /-- `❗ Server *S* is DOWN. No ping received for over T seconds.` -/
  | serverDown (serverName : String) (thresholdSeconds : Int)
  /-- `❓ Server *S* is configured but has not reported any status.` -/
  | neverReported (serverName : String)
  deriving DecidableEq, Repr

/-- Outcome of one `/hello` POST for a validated server name: the record
persisted to D1, the Telegram notification dispatched via
`ctx.waitUntil` (if any), and the HTTP status of the response. -/
structure PingResult where
  record : ServerStatus
  notification : Option Notification
  httpStatus : Nat
  deriving DecidableEq, Repr

/-- The decision core of `handleHelloPost` (src/src/index.ts lines 47-109):
given the row read from D1 (or `none`) and `currentTime`, produce the row
written back, the notification, and the HTTP status. -/
def handleHelloPost (serverName : String) (existing : Option ServerStatus)
    (currentTime : Int) : PingResult :=
  match existing with
  | some serverInfo =>
    let previousState := serverInfo.last_state
    if previousState = ServerState.down then
      -- Server was down, now it's up
      let downTimeSeconds := currentTime - serverInfo.last_state_change_timestamp
      { record := { serverInfo with
          last_hello_timestamp := currentTime,
          last_state := ServerState.up,
          last_state_change_timestamp := currentTime },
        notification := some (Notification.backUp serverName downTimeSeconds),
        httpStatus := 200 }
    else
      -- Server still up, just update hello time
      { record := { serverInfo with
          last_hello_timestamp := currentTime,
          last_state := ServerState.up },
        notification := none,
        httpStatus := 200 }
  | none =>
    -- New server, first time hello
    { record := { server_name := serverName,
                  last_hello_timestamp := currentTime,
                  last_state := ServerState.up,
                  last_state_change_timestamp := currentTime },
      notification := some (Notification.firstPing serverName),
      httpStatus := 201 }

/-- The threshold constant declared inside `scheduled`
(src/src/index.ts line 132): `const alertThresholdSeconds = 70;`. -/
def alertThresholdSeconds : Int := 70

/-- Outcome of the sweep for one server: the row written to D1 (`none`
when nothing is written) and the notification dispatched (if any). -/
structure SweepResult where
  record : Option ServerStatus
  notification : Option Notification
  deriving DecidableEq, Repr

/-- The per-entity decision body of `scheduled` (src/src/index.ts lines
140-166), with the threshold it compares against made explicit as the
`threshold` argument. -/
def sweepEntity (serverName : String) (existing : Option ServerStatus)
    (currentTime threshold : Int) : SweepResult :=
  match existing with
  | some serverInfo =>
    if serverInfo.last_state = ServerState.up ∧
        currentTime - serverInfo.last_hello_timestamp > threshold then
      -- Server was 'up' but missed pings, mark as 'down'
      { record := some { serverInfo with
          last_state := ServerState.down,
          last_state_change_timestamp := currentTime },
        notification := some (Notification.serverDown serverName threshold) }
    else
      { record := none, notification := none }
  | none =>
    -- Server is in ENV but not in DB: add it as 'down' and notify
    { record := some { server_name := serverName,
                       last_hello_timestamp := 0,
                       last_state := ServerState.down,
                       last_state_change_timestamp := currentTime },
      notification := some (Notification.neverReported serverName) }

/-- What `scheduled` actually does for one entity: it invokes the sweep
decision with the local constant 70, whatever `env` holds
(src/src/index.ts lines 131-166). -/
def scheduledEntity (_env : Env) (serverName : String)
    (existing : Option ServerStatus) (currentTime : Int) : SweepResult :=
  sweepEntity serverName existing currentTime alertThresholdSeconds

/-- The threshold constant of the `/status` bot command
(src/src/telegramBot.ts line 58): `const alertThresholdSeconds = 90;`. -/
def statusAlertThresholdSeconds : Int := 90

/-- The staleness test of the `/status` bot command
(src/src/telegramBot.ts lines 75-79): an UP row whose last ping is older
than the bot's threshold is displayed as `UP (Stale)`. -/
def statusIsStale (serverInfo : ServerStatus) (currentTime : Int) : Bool :=
  decide (serverInfo.last_state = ServerState.up ∧
    currentTime - serverInfo.last_hello_timestamp > statusAlertThresholdSeconds)

/-- Whether the sweep body would flip this row to DOWN at `currentTime`
(the condition of src/src/index.ts line 142, with its threshold 70). -/
def sweepWouldMarkDown (serverInfo : ServerStatus) (currentTime : Int) : Bool :=
  decide (serverInfo.last_state = ServerState.up ∧
    currentTime - serverInfo.last_hello_timestamp > alertThresholdSeconds)

/-- `env.SERVERS.split(',').map(s => s.trim()).filter(s => s.length > 0)`
(src/src/index.ts line 130). -/
def serverNamesFromEnv (servers : String) : List String :=
  ((servers.splitOn ",").map (fun s => s.trim)).filter (fun s => s.length > 0)

/-- One iteration of the sweep loop: the body (store read, decision, store
write, notify dispatch — abstracted as `step`, which may throw) runs
inside try/catch; an exception is logged (`console.error`) and swallowed,
yielding `none` for that entity (src/src/index.ts lines 135-171). -/
def caughtEntity (step : String → Except String SweepResult)
    (serverName : String) : Option SweepResult :=
  match step serverName with
  | Except.ok res => some res
  | Except.error _ => none

/-- The `for` loop of `scheduled` (src/src/index.ts lines 134-172): every
configured name is visited in order; each iteration's outcome is whatever
its own caught body produced. -/
def scheduledLoop (step : String → Except String SweepResult) :
    List String → List (String × Option SweepResult)
  | [] => []
  | serverName :: rest =>
      (serverName, caughtEntity step serverName) :: scheduledLoop step rest

/-! ## Helper lemmas -/

/-- The sweep loop visits exactly the configured names, in order,
regardless of which entities' bodies fail. -/
theorem scheduledLoop_map_fst (step : String → Except String SweepResult) :
    ∀ names : List String, (scheduledLoop step names).map Prod.fst = names := by
  intro names
  induction names with
  | nil => rfl
  | cons a rest ih => simpa [scheduledLoop] using ih

/-- Every configured name appears in the loop's outcome list paired with
the caught result of its own body. -/
theorem scheduledLoop_mem (step : String → Except String SweepResult) :
    ∀ names : List String, ∀ n ∈ names,
      (n, caughtEntity step n) ∈ scheduledLoop step names := by
  intro names
  induction names with
  | nil => intro n hn; cases hn
  | cons a rest ih =>
      intro n hn
      rcases List.mem_cons.mp hn with h | h
      · subst h; exact List.mem_cons_self _ _
      · exact List.mem_cons_of_mem _ (ih n h)

/-! ## Claims -/

/-- C1 counterexample: pinging the record {DOWN, last_seen_at = 1000,
state_changed_at = 1100} at t = 1300 makes the code report a downtime of
1300 − 1100 = 200 seconds (it subtracts `last_state_change_timestamp`),
not the 300 = now − last_seen_at the claim states. -/
theorem downtime_not_gap_since_last_seen :
    (handleHelloPost "db1" (some ⟨"db1", 1000, ServerState.down, 1100⟩) 1300).notification =
      some (Notification.backUp "db1" 200) ∧
    ¬ (handleHelloPost "db1" (some ⟨"db1", 1000, ServerState.down, 1100⟩) 1300).notification =
      some (Notification.backUp "db1" (1300 - 1000)) := by
  decide

/-- C1 (amended): for every existing DOWN record, the ping at `now`
yields state UP, both timestamps set to `now`, HTTP 200, and a recovery
notification whose reported downtime is
`now − existing.last_state_change_timestamp` — the gap since the
down-transition, not since the last accepted ping. -/
theorem down_ping_recovery_reports_gap_since_state_change
    (serverName : String) (r : ServerStatus) (now : Int)
    (hdown : r.last_state = ServerState.down) :
    handleHelloPost serverName (some r) now =
      { record := { r with
          last_hello_timestamp := now,
          last_state := ServerState.up,
          last_state_change_timestamp := now },
        notification := some (Notification.backUp serverName
          (now - r.last_state_change_timestamp)),
        httpStatus := 200 } := by
  simp [handleHelloPost, hdown]

/-- C1 witness: the amended claim evaluated on scenario C's record. -/
theorem down_ping_recovery_witness :
    handleHelloPost "db1" (some ⟨"db1", 1000, ServerState.down, 1100⟩) 1300 =
      { record := ⟨"db1", 1300, ServerState.up, 1300⟩,
        notification := some (Notification.backUp "db1" 200),
        httpStatus := 200 } :=
  down_ping_recovery_reports_gap_since_state_change "db1"
    ⟨"db1", 1000, ServerState.down, 1100⟩ 1300 rfl

/-- C2: the `/status` staleness test and the sweep's down-detection use
different thresholds (90 vs 70): for the UP record last pinged at 1000,
at now = 1080 the sweep writes state DOWN while the status command does
not display the record as stale. -/
theorem stale_and_sweep_thresholds_disagree :
    (scheduledEntity ⟨"db1", "tok", 90⟩ "db1"
        (some ⟨"db1", 1000, ServerState.up, 1000⟩) 1080).record =
      some ⟨"db1", 1000, ServerState.down, 1080⟩ ∧
    statusIsStale ⟨"db1", 1000, ServerState.up, 1000⟩ 1080 = false := by
  decide

/-- C3 counterexample: with `ALERT_THRESHOLD_SECONDS` configured to 90,
the sweep still marks the UP record silent for only 80 seconds as DOWN:
the comparison is against the in-code constant 70, not the configured
value. -/
theorem scheduled_threshold_not_configured :
    (scheduledEntity ⟨"db1", "tok", 90⟩ "db1"
        (some ⟨"db1", 1000, ServerState.up, 1000⟩) 1080).record =
      some ⟨"db1", 1000, ServerState.down, 1080⟩ ∧
    ¬ ((1080 : Int) - 1000 > (90 : Int)) := by
  decide

/-- C3 (amended): the silence threshold the sweep uses is the constant 70
seconds fixed in the code; every sweep decision is the comparison against
70, identical for any two configurations. -/
theorem scheduled_uses_constant_seventy (env env2 : Env) (serverName : String)
    (existing : Option ServerStatus) (now : Int) :
    scheduledEntity env serverName existing now =
      sweepEntity serverName existing now 70 ∧
    scheduledEntity env serverName existing now =
      scheduledEntity env2 serverName existing now :=
  ⟨rfl, rfl⟩

/-- C4 counterexample: pinging the record {DOWN, last_seen_at = 1000,
state_changed_at = 1300} at now = 1300 flips `last_state` (down → up)
while leaving `last_state_change_timestamp` at its old value 1300, so
"state_changed_at changes iff state changes" fails in this update. -/
theorem state_flip_without_timestamp_change :
    ¬ (((handleHelloPost "db1" (some ⟨"db1", 1000, ServerState.down, 1300⟩)
          1300).record.last_state_change_timestamp ≠ (1300 : Int)) ↔
       ((handleHelloPost "db1" (some ⟨"db1", 1000, ServerState.down, 1300⟩)
          1300).record.last_state ≠ ServerState.down)) := by
  decide

/-- C4 (amended): in every update of an existing record by ping or sweep,
if `last_state_change_timestamp` changes then `last_state` changes, and
whenever `last_state` changes the update writes `now` into
`last_state_change_timestamp` — a value that can coincide with the old
one, so the timestamp need not change. -/
theorem state_change_timestamp_coupling (serverName : String)
    (r : ServerStatus) (now threshold : Int) :
    (((handleHelloPost serverName (some r) now).record.last_state_change_timestamp ≠
        r.last_state_change_timestamp →
      (handleHelloPost serverName (some r) now).record.last_state ≠ r.last_state) ∧
     ((handleHelloPost serverName (some r) now).record.last_state ≠ r.last_state →
      (handleHelloPost serverName (some r) now).record.last_state_change_timestamp = now)) ∧
    (∀ r2 ∈ (sweepEntity serverName (some r) now threshold).record,
      (r2.last_state_change_timestamp ≠ r.last_state_change_timestamp →
        r2.last_state ≠ r.last_state) ∧
      (r2.last_state ≠ r.last_state → r2.last_state_change_timestamp = now)) := by
  rcases r with ⟨n, lh, st, lc⟩
  cases st
  · refine ⟨⟨fun h => ?_, fun h => ?_⟩, fun r2 h2 => ?_⟩
    · simp [handleHelloPost] at h
    · simp [handleHelloPost] at h
    · by_cases hgt : now - lh > threshold
      · have he : sweepEntity serverName (some ⟨n, lh, ServerState.up, lc⟩)
            now threshold =
            { record := some ⟨n, lh, ServerState.down, now⟩,
              notification := some (Notification.serverDown serverName threshold) } := by
          simp [sweepEntity, hgt]
        rw [he] at h2
        simp only [Option.mem_def, Option.some.injEq] at h2
        subst h2
        exact ⟨fun _ => by simp, fun _ => rfl⟩
      · have he : sweepEntity serverName (some ⟨n, lh, ServerState.up, lc⟩)
            now threshold = { record := none, notification := none } := by
          simp [sweepEntity, hgt]
        rw [he] at h2
        simp at h2
  · refine ⟨⟨fun h => ?_, fun h => ?_⟩, fun r2 h2 => ?_⟩
    · exact by simp [handleHelloPost]
    · simp [handleHelloPost]
    · have he : sweepEntity serverName (some ⟨n, lh, ServerState.down, lc⟩)
          now threshold = { record := none, notification := none } := by
        simp [sweepEntity]
      rw [he] at h2
      simp at h2

/-- C4 witness: the amended coupling applied to a recovery ping, where
the state flips and the timestamp is written as now = 1100. -/
theorem state_change_timestamp_coupling_witness :
    (handleHelloPost "db1" (some ⟨"db1", 1000, ServerState.down, 1000⟩)
      1100).record.last_state_change_timestamp = 1100 := by
  have h := state_change_timestamp_coupling "db1"
    ⟨"db1", 1000, ServerState.down, 1000⟩ 1100 70
  exact h.1.2 (by decide)

/-- C5: per existing record, the sweep at `now` with threshold `T` flips
an UP record silent strictly longer than `T` to DOWN with
`last_state_change_timestamp := now` and `last_hello_timestamp`
untouched, dispatching a down notification; an UP record silent ≤ `T`,
or a DOWN record, is left unwritten with no notification. -/
theorem sweep_tick_decision (serverName : String) (r : ServerStatus)
    (now threshold : Int) :
    (r.last_state = ServerState.up → now - r.last_hello_timestamp > threshold →
      sweepEntity serverName (some r) now threshold =
        { record := some { r with
            last_state := ServerState.down,
            last_state_change_timestamp := now },
          notification := some (Notification.serverDown serverName threshold) }) ∧
    (r.last_state = ServerState.up → now - r.last_hello_timestamp ≤ threshold →
      sweepEntity serverName (some r) now threshold =
        { record := none, notification := none }) ∧
    (r.last_state = ServerState.down →
      sweepEntity serverName (some r) now threshold =
        { record := none, notification := none }) := by
  refine ⟨fun hup hgt => ?_, fun hup hle => ?_, fun hdown => ?_⟩
  · simp [sweepEntity, hup, hgt]
  · simp [sweepEntity, hup, not_lt.mpr hle]
  · simp [sweepEntity, hdown]

/-- C5 witness: scenario B — {UP, 1000, 1000} with threshold 90 is left
alone by a sweep at 1050 and declared DOWN by a sweep at 1100; a DOWN
record is left alone. -/
theorem sweep_tick_decision_witness :
    sweepEntity "db1" (some ⟨"db1", 1000, ServerState.up, 1000⟩) 1100 90 =
      { record := some ⟨"db1", 1000, ServerState.down, 1100⟩,
        notification := some (Notification.serverDown "db1" 90) } ∧
    sweepEntity "db1" (some ⟨"db1", 1000, ServerState.up, 1000⟩) 1050 90 =
      { record := none, notification := none } ∧
    sweepEntity "db1" (some ⟨"db1", 1000, ServerState.down, 1100⟩) 1200 90 =
      { record := none, notification := none } :=
  ⟨(sweep_tick_decision "db1" ⟨"db1", 1000, ServerState.up, 1000⟩ 1100 90).1
      rfl (by decide),
   (sweep_tick_decision "db1" ⟨"db1", 1000, ServerState.up, 1000⟩ 1050 90).2.1
      rfl (by decide),
   (sweep_tick_decision "db1" ⟨"db1", 1000, ServerState.down, 1100⟩ 1200 90).2.2
      rfl⟩

/-- C6: for every existing UP record and ping time now2 ≥ last_seen_at,
the ping writes back the record with only `last_hello_timestamp` replaced
by now2 (`last_state_change_timestamp` and every other field untouched),
no notification, HTTP 200. -/
theorem up_ping_refreshes (serverName : String) (r : ServerStatus)
    (now2 : Int) (hup : r.last_state = ServerState.up)
    (_hmono : r.last_hello_timestamp ≤ now2) :
    handleHelloPost serverName (some r) now2 =
      { record := { r with last_hello_timestamp := now2 },
        notification := none,
        httpStatus := 200 } := by
  rcases r with ⟨n, lh, st, lc⟩
  cases hup
  rfl

/-- C6 witness: a refresh ping at 1050 on {UP, 1000, 900}. -/
theorem up_ping_refreshes_witness :
    handleHelloPost "db1" (some ⟨"db1", 1000, ServerState.up, 900⟩) 1050 =
      { record := ⟨"db1", 1050, ServerState.up, 900⟩,
        notification := none,
        httpStatus := 200 } :=
  up_ping_refreshes "db1" ⟨"db1", 1000, ServerState.up, 900⟩ 1050 rfl (by decide)

/-- C7: an entity absent from the store is created by a ping as
{UP, now, now} with a first-contact notification and HTTP 201, and by a
sweep tick as {DOWN, last_seen_at = 0, state_changed_at = now} with a
"never reported" notification. -/
theorem absent_entity_onboarding (serverName : String) (now threshold : Int) :
    handleHelloPost serverName none now =
      { record := { server_name := serverName,
                    last_hello_timestamp := now,
                    last_state := ServerState.up,
                    last_state_change_timestamp := now },
        notification := some (Notification.firstPing serverName),
        httpStatus := 201 } ∧
    sweepEntity serverName none now threshold =
      { record := some { server_name := serverName,
                         last_hello_timestamp := 0,
                         last_state := ServerState.down,
                         last_state_change_timestamp := now },
        notification := some (Notification.neverReported serverName) } :=
  ⟨rfl, rfl⟩

/-- Every ping leaves the stored record with `last_hello_timestamp = now`
and state UP, whatever it started as. -/
theorem handleHelloPost_record_fresh (serverName : String)
    (existing : Option ServerStatus) (now : Int) :
    (handleHelloPost serverName existing now).record.last_hello_timestamp = now ∧
    (handleHelloPost serverName existing now).record.last_state = ServerState.up := by
  rcases existing with _ | ⟨n, lh, st, lc⟩
  · exact ⟨rfl, rfl⟩
  · cases st
    · exact ⟨rfl, rfl⟩
    · exact ⟨rfl, rfl⟩

/-- C8: a sweep tick with any non-negative threshold run at the same time
as a just-processed ping never declares the resulting record DOWN — the
record's `last_hello_timestamp` equals `now`, so the strict comparison
`now − last_hello_timestamp > threshold` fails at 0. -/
theorem ping_then_immediate_sweep_stays_up (serverName : String)
    (existing : Option ServerStatus) (now threshold : Int)
    (hT : 0 ≤ threshold) :
    sweepEntity serverName (some (handleHelloPost serverName existing now).record)
      now threshold = { record := none, notification := none } := by
  have hfresh := handleHelloPost_record_fresh serverName existing now
  simp only [sweepEntity]
  rw [if_neg]
  rintro ⟨-, hgt⟩
  rw [hfresh.1] at hgt
  omega

/-- C8 witness: pinging an absent entity at 1000 and sweeping at the same
instant with threshold 70 changes nothing. -/
theorem ping_then_immediate_sweep_stays_up_witness :
    sweepEntity "db1" (some (handleHelloPost "db1" none 1000).record) 1000 70 =
      { record := none, notification := none } :=
  ping_then_immediate_sweep_stays_up "db1" none 1000 70 (by decide)

/-- C9: if some configured entity's sweep body throws (store read/write
or notify failure), the loop still visits every configured name in
order, and every entity — the failing one included — gets exactly the
outcome of its own caught body; one entity's failure never aborts the
pass. -/
theorem sweep_failure_isolated (step : String → Except String SweepResult)
    (names : List String)
    (_hfail : ∃ n ∈ names, ∃ e, step n = Except.error e) :
    (scheduledLoop step names).map Prod.fst = names ∧
    ∀ n ∈ names, (n, caughtEntity step n) ∈ scheduledLoop step names :=
  ⟨scheduledLoop_map_fst step names, scheduledLoop_mem step names⟩

/-- C9 witness: with "b" failing among ["a", "b", "c"], all three names
are still processed. -/
theorem sweep_failure_isolated_witness :
    (scheduledLoop (fun n => if n = "b" then Except.error "boom"
        else Except.ok { record := none, notification := none })
      ["a", "b", "c"]).map Prod.fst = ["a", "b", "c"] ∧
    ("c", caughtEntity (fun n => if n = "b" then Except.error "boom"
        else Except.ok { record := none, notification := none }) "c") ∈
      scheduledLoop (fun n => if n = "b" then Except.error "boom"
        else Except.ok { record := none, notification := none }) ["a", "b", "c"] := by
  have h := sweep_failure_isolated
    (fun n => if n = "b" then Except.error "boom"
      else Except.ok { record := none, notification := none })
    ["a", "b", "c"] ⟨"b", by decide, "boom", rfl⟩
  exact ⟨h.1, h.2 "c" (by decide)⟩

/-- C10: a second ping with the same `now` on the record the first ping
stored leaves the stored record identical and produces no notification —
duplicate pings never double-fire a first-contact or recovery
notification, whatever the starting state (absent, UP or DOWN). -/
theorem ping_idempotent_at_same_time (serverName : String)
    (existing : Option ServerStatus) (now : Int) :
    (handleHelloPost serverName
        (some (handleHelloPost serverName existing now).record) now).record =
      (handleHelloPost serverName existing now).record ∧
    (handleHelloPost serverName
        (some (handleHelloPost serverName existing now).record) now).notification =
      none := by
  rcases existing with _ | ⟨n, lh, st, lc⟩
  · exact ⟨rfl, rfl⟩
  · cases st
    · exact ⟨rfl, rfl⟩
    · exact ⟨rfl, rfl⟩

end CfPing
